import Mathlib

/-!
Shallow embedding of the agent-ollama-gin gateway core: the domain model
(internal/domain/entity.go), the typed-error helpers (pkg/errors), the
parallel encyclopedia search aggregator
(internal/infrastructure EncyclopediaClientFactory.SearchParallel), the
encyclopedia and LLM usecases (internal/usecase/encyclopedia_usecase.go and
the LLM usecase source embedded in CI_CD.md), the Ollama response parsers,
and a spec-modelled in-memory TTL cache.

Go machine integers are modelled as `Int` (with `Int.tdiv` for Go's
truncated integer division), Go `float64` values that the embedded code
only stores, adds or truncates are modelled as `Rat`, and Go `error`
results as `Except AppError`/`Option AppError`. Upstream HTTP calls are
modelled as oracle functions supplied through an environment record, and
every operation returns, besides its result, the list of upstream calls it
made and the list of cache writes it performed, so that frame conditions
("no upstream call, no cache write") are part of the function's value.
-/

namespace AgentOllamaGin

/-! ## Typed errors (pkg/errors, src/unnamed/part_016)

`AppError` keeps the `Code` and `Message` fields of pkg/errors.AppError;
the wrapped error and the details map carry no weight in the verified
properties and are omitted. A plain `fmt.Errorf` error is modelled as an
`AppError` with an empty code. -/

structure AppError where
  code : String
  message : String
deriving DecidableEq, Repr

/-! ## Domain entities (internal/domain/entity.go) -/

structure Message where
  role : String
  content : String
deriving DecidableEq, Repr

structure Usage where
  promptTokens : Int
  completionTokens : Int
  totalTokens : Int
deriving DecidableEq, Repr

structure Choice where
  index : Int
  message : Message
  delta : Message
deriving DecidableEq, Repr

structure LLMRequest where
  messages : List Message
  model : String
  temperature : Rat
  maxTokens : Int
  stream : Bool
deriving DecidableEq, Repr

structure LLMResponse where
  id : String
  object : String
  created : Int
  model : String
  choices : List Choice
  usage : Usage
  err : Option AppError
deriving DecidableEq, Repr

structure CompletionRequest where
  prompt : String
  model : String
  temperature : Rat
  maxTokens : Int
  stop : String
deriving DecidableEq, Repr

structure CompletionResponse where
  id : String
  object : String
  created : Int
  model : String
  choices : List Choice
  usage : Usage
deriving DecidableEq, Repr

structure EmbeddingRequest where
  input : String
  model : String
deriving DecidableEq, Repr

structure Embedding where
  object : String
  embedding : List Rat
  index : Int
deriving DecidableEq, Repr

structure EmbeddingResponse where
  object : String
  data : List Embedding
  model : String
  usage : Usage
deriving DecidableEq, Repr

structure LLMModel where
  id : String
  object : String
  created : Int
  ownedBy : String
deriving DecidableEq, Repr

structure EncyclopediaSearchRequest where
  query : String
  source : String
  maxResults : Int
  language : String
  includeSnippet : Bool
deriving DecidableEq, Repr

structure EncyclopediaSearchResult where
  title : String
  url : String
  snippet : String
  source : String
  language : String
  relevance : Rat
deriving DecidableEq, Repr

structure EncyclopediaSearchResponse where
  query : String
  results : List EncyclopediaSearchResult
  totalFound : Int
  source : String
  language : String
deriving DecidableEq, Repr

structure EncyclopediaArticleRequest where
  title : String
  url : String
  source : String
  language : String
  includeImages : Bool
  maxLength : Int
deriving DecidableEq, Repr

structure EncyclopediaArticle where
  title : String
  url : String
  source : String
  language : String
  content : String
  summary : String
  categories : List String
  references : List String
  lastUpdated : String
  wordCount : Int
deriving DecidableEq, Repr

structure EncyclopediaArticleResponse where
  article : EncyclopediaArticle
  related : List String
  source : String
  language : String
deriving DecidableEq, Repr

/-! ## Cached values

The Go cache stores `interface{}`; the usecases read values back with a
checked type assertion. `CVal` is the sum of the dynamic types the
usecases actually store, plus `other` for a value of any different type
(on which every one of the usecases' type assertions fails). -/

inductive CVal where
  | search (r : EncyclopediaSearchResponse)
  | article (r : EncyclopediaArticleResponse)
  | chat (r : LLMResponse)
  | completion (r : CompletionResponse)
  | embedding (r : EmbeddingResponse)
  | models (l : List LLMModel)
  | other
deriving DecidableEq, Repr

/-- A `cache.Set(ctx, key, value, ttl)` call recorded by a usecase run. -/
structure CacheWrite where
  key : String
  value : CVal
  ttlSeconds : Int
deriving DecidableEq, Repr

/-- Result of one usecase operation: the Go return value together with the
upstream calls made and the cache writes performed during the run.
`κ` is the type of upstream-call records for the operation family. -/
structure UcOut (κ : Type) (α : Type) where
  result : Except AppError α
  calls : List κ
  writes : List CacheWrite

/-! ## Parallel search aggregator (src/unnamed/part_008, SearchParallel)

The two provider goroutines each write to their own buffered result
channel (capacity 1) and to a shared error channel; the main flow waits on
the wait-group, closes the channels and then receives from the wiki
channel first and the brit channel second. We model a run by an explicit
completion order `sched` (the order in which the two tasks finish),
folding each task's channel writes into a channel state; receiving from a
closed channel that never got a value yields the zero value (nil slice),
exactly as `append(all, <-ch...)` sees it in Go. -/

inductive Provider where
  | wikipedia
  | britannica
deriving DecidableEq, Repr

/-- An upstream encyclopedia-client call (provider, arguments). -/
inductive EncCall where
  | search (p : Provider) (query language : String) (limit : Int)
  | getArticle (p : Provider) (title : String) (maxLength : Int)
deriving DecidableEq, Repr

/-- Channel contents after the goroutines ran, plus the upstream calls they
issued, in completion order. -/
structure ChanState where
  wikiChan : List (List EncyclopediaSearchResult)
  britChan : List (List EncyclopediaSearchResult)
  errChan : List AppError
  callLog : List EncCall
deriving DecidableEq, Repr

/-- The `ctx.Err()` value for a cancelled context, as `errors` would wrap it. -/
def ctxCanceledError : AppError := ⟨"", "context canceled"⟩

/-- Receiving from a closed buffered channel: the buffered value if one was
sent, otherwise the zero value (nil slice). -/
def recvClosed (ch : List (List EncyclopediaSearchResult)) :
    List EncyclopediaSearchResult :=
  match ch with
  | [] => []
  | rs :: _ => rs

/-- One provider goroutine body (part_008 lines 98-138): check `ctx.Done()`
first (on cancellation send `ctx.Err()` and return without a result);
otherwise call the provider's `Search` with `maxResults/2` and send either
the results or (on error) the error plus an empty result slice. -/
def runTask (cancelled : Bool)
    (wiki brit : String → String → Int → Except AppError (List EncyclopediaSearchResult))
    (query language : String) (maxResults : Int)
    (st : ChanState) (p : Provider) : ChanState :=
  if cancelled then
    { st with errChan := st.errChan ++ [ctxCanceledError] }
  else
    let limit := maxResults.tdiv 2
    match p with
    | .wikipedia =>
      let st := { st with callLog := st.callLog ++ [EncCall.search Provider.wikipedia query language limit] }
      match wiki query language limit with
      | .error e =>
        { st with errChan := st.errChan ++ [e], wikiChan := st.wikiChan ++ [[]] }
      | .ok rs => { st with wikiChan := st.wikiChan ++ [rs] }
    | .britannica =>
      let st := { st with callLog := st.callLog ++ [EncCall.search Provider.britannica query language limit] }
      match brit query language limit with
      | .error e =>
        { st with errChan := st.errChan ++ [e], britChan := st.britChan ++ [[]] }
      | .ok rs => { st with britChan := st.britChan ++ [rs] }

/-- EncyclopediaClientFactory.SearchParallel (part_008 lines 86-152): run
both tasks (in completion order `sched`), join, then concatenate the wiki
channel's contribution and the brit channel's contribution, in that fixed
order; the collected per-provider errors are discarded and the returned
error is always nil. -/
def searchParallel (cancelled : Bool)
    (wiki brit : String → String → Int → Except AppError (List EncyclopediaSearchResult))
    (query language : String) (maxResults : Int) (sched : List Provider) :
    ChanState × (List EncyclopediaSearchResult × Option AppError) :=
  let st := sched.foldl (runTask cancelled wiki brit query language maxResults) ⟨[], [], [], []⟩
  (st, (recvClosed st.wikiChan ++ recvClosed st.britChan, none))

/-- What one task contributes to the merged list: nothing when the context
was already cancelled or the provider errored, its result list otherwise. -/
def taskContribution (cancelled : Bool)
    (outcome : Except AppError (List EncyclopediaSearchResult)) :
    List EncyclopediaSearchResult :=
  if cancelled then []
  else
    match outcome with
    | .error _ => []
    | .ok rs => rs

/-- The two possible completion orders of the two provider goroutines. -/
def TwoTaskSchedule (sched : List Provider) : Prop :=
  sched = [Provider.wikipedia, Provider.britannica] ∨
    sched = [Provider.britannica, Provider.wikipedia]

instance (sched : List Provider) : Decidable (TwoTaskSchedule sched) := by
  unfold TwoTaskSchedule
  infer_instance

/-! ## Encyclopedia usecase (internal/usecase/encyclopedia_usecase.go)

The usecase's collaborators (the cache's `Get` and the two provider
clients) are oracle functions in `EncEnv`. A `cacheGet` result of `none`
stands for a Go `Get` that returned an error or a nil value; any `some`
value is a non-nil cached `interface{}` whose dynamic type the usecase
then checks. `ctxCancelled`/`sched` fix the concurrency nondeterminism of
one run of the parallel aggregator. -/

structure EncEnv where
  cacheGet : String → Option CVal
  wikiSearch : String → String → Int → Except AppError (List EncyclopediaSearchResult)
  britSearch : String → String → Int → Except AppError (List EncyclopediaSearchResult)
  wikiGetArticle : String → Int → Except AppError EncyclopediaArticle
  britGetArticle : String → Int → Except AppError EncyclopediaArticle
  ctxCancelled : Bool
  sched : List Provider

/-- The defaulting block at the top of SearchEncyclopedia: MaxResults 0
becomes 5, empty Language becomes "en", empty Source becomes "all". -/
def applySearchDefaults (req : EncyclopediaSearchRequest) : EncyclopediaSearchRequest :=
  { req with
    maxResults := if req.maxResults = 0 then 5 else req.maxResults
    language := if req.language = "" then "en" else req.language
    source := if req.source = "" then "all" else req.source }

/-- fmt.Sprintf("search:%s:%s:%d", Query, Language, MaxResults) — the
Source field is not part of the key. -/
def searchCacheKey (req : EncyclopediaSearchRequest) : String :=
  "search:" ++ req.query ++ ":" ++ req.language ++ ":" ++ toString req.maxResults

/-- EncyclopediaUsecase.SearchEncyclopedia: defaults, cache lookup with a
checked type assertion, then a switch on the source ("wikipedia" /
"britannica" propagate provider errors; "all" runs the parallel aggregator
and ignores its — always nil — error; any other source leaves the result
list nil), and finally a 1-hour cache write of the fresh response. -/
def searchEncyclopedia (env : EncEnv) (req0 : EncyclopediaSearchRequest) :
    UcOut EncCall EncyclopediaSearchResponse :=
  let req := applySearchDefaults req0
  let cacheKey := searchCacheKey req
  match env.cacheGet cacheKey with
  | some (CVal.search response) => ⟨.ok response, [], []⟩
  | _ =>
    if req.source = "wikipedia" then
      match env.wikiSearch req.query req.language req.maxResults with
      | .error e =>
        ⟨.error e, [EncCall.search Provider.wikipedia req.query req.language req.maxResults], []⟩
      | .ok rs =>
        let response : EncyclopediaSearchResponse :=
          ⟨req.query, rs, (rs.length : Int), req.source, req.language⟩
        ⟨.ok response,
          [EncCall.search Provider.wikipedia req.query req.language req.maxResults],
          [⟨cacheKey, CVal.search response, 3600⟩]⟩
    else if req.source = "britannica" then
      match env.britSearch req.query req.language req.maxResults with
      | .error e =>
        ⟨.error e, [EncCall.search Provider.britannica req.query req.language req.maxResults], []⟩
      | .ok rs =>
        let response : EncyclopediaSearchResponse :=
          ⟨req.query, rs, (rs.length : Int), req.source, req.language⟩
        ⟨.ok response,
          [EncCall.search Provider.britannica req.query req.language req.maxResults],
          [⟨cacheKey, CVal.search response, 3600⟩]⟩
    else if req.source = "all" then
      let out := searchParallel env.ctxCancelled env.wikiSearch env.britSearch
        req.query req.language req.maxResults env.sched
      let results := out.2.1
      let response : EncyclopediaSearchResponse :=
        ⟨req.query, results, (results.length : Int), req.source, req.language⟩
      ⟨.ok response, out.1.callLog, [⟨cacheKey, CVal.search response, 3600⟩]⟩
    else
      let response : EncyclopediaSearchResponse :=
        ⟨req.query, [], 0, req.source, req.language⟩
      ⟨.ok response, [], [⟨cacheKey, CVal.search response, 3600⟩]⟩

/-- strings.Contains(s, sub). -/
def goContains (s sub : String) : Bool :=
  decide (sub.data <:+: s.data)

/-- The defaulting block at the top of GetArticle: empty Language becomes
"en", MaxLength 0 becomes 2000. -/
def applyArticleDefaults (req : EncyclopediaArticleRequest) : EncyclopediaArticleRequest :=
  { req with
    language := if req.language = "" then "en" else req.language
    maxLength := if req.maxLength = 0 then 2000 else req.maxLength }

/-- fmt.Sprintf("article:%s:%s", Title+URL, Language). -/
def articleCacheKey (req : EncyclopediaArticleRequest) : String :=
  "article:" ++ (req.title ++ req.url) ++ ":" ++ req.language

/-- EncyclopediaUsecase.GetArticle: defaults, cache lookup with checked
type assertion, source resolution (from the URL when one is given,
otherwise the request's Source field), dispatch to the provider client,
and a 24-hour cache write; an unresolved source is an error. -/
def getArticle (env : EncEnv) (req0 : EncyclopediaArticleRequest) :
    UcOut EncCall EncyclopediaArticleResponse :=
  let req := applyArticleDefaults req0
  let cacheKey := articleCacheKey req
  match env.cacheGet cacheKey with
  | some (CVal.article response) => ⟨.ok response, [], []⟩
  | _ =>
    let source : String :=
      if req.url ≠ "" then
        if goContains req.url "wikipedia.org" then "wikipedia"
        else if goContains req.url "britannica.com" then "britannica"
        else ""
      else req.source
    if source = "wikipedia" then
      match env.wikiGetArticle req.title req.maxLength with
      | .error e => ⟨.error e, [EncCall.getArticle Provider.wikipedia req.title req.maxLength], []⟩
      | .ok article =>
        let response : EncyclopediaArticleResponse := ⟨article, [], source, req.language⟩
        ⟨.ok response,
          [EncCall.getArticle Provider.wikipedia req.title req.maxLength],
          [⟨cacheKey, CVal.article response, 86400⟩]⟩
    else if source = "britannica" then
      match env.britGetArticle req.title req.maxLength with
      | .error e => ⟨.error e, [EncCall.getArticle Provider.britannica req.title req.maxLength], []⟩
      | .ok article =>
        let response : EncyclopediaArticleResponse := ⟨article, [], source, req.language⟩
        ⟨.ok response,
          [EncCall.getArticle Provider.britannica req.title req.maxLength],
          [⟨cacheKey, CVal.article response, 86400⟩]⟩
    else
      ⟨.error ⟨"", "unsupported source: " ++ source⟩, [], []⟩

/-! ## LLM usecase (source embedded in src/CI_CD.md) -/

/-- An upstream Ollama-client call recorded by an LLM usecase run. -/
inductive LLMCall where
  | chat (req : LLMRequest)
  | completion (req : CompletionRequest)
  | embedding (req : EmbeddingRequest)
  | listModels
deriving DecidableEq, Repr

structure LLMEnv where
  cacheGet : String → Option CVal
  chatClient : LLMRequest → Except AppError LLMResponse
  completionClient : CompletionRequest → Except AppError CompletionResponse
  embeddingClient : EmbeddingRequest → Except AppError EmbeddingResponse
  modelsClient : Unit → Except AppError (List LLMModel)

/-- hashRequest: concatenation of role:content pairs, each followed by
"|", then the model name. -/
def hashRequest (req : LLMRequest) : String :=
  (req.messages.foldl (fun h msg => h ++ msg.role ++ ":" ++ msg.content ++ "|") "")
    ++ req.model

def chatCacheKey (req : LLMRequest) : String :=
  "chat:" ++ hashRequest req

def hashCompletionRequest (req : CompletionRequest) : String :=
  req.prompt ++ ":" ++ req.model

def completionCacheKey (req : CompletionRequest) : String :=
  "completion:" ++ hashCompletionRequest req

def embeddingCacheKey (req : EmbeddingRequest) : String :=
  "embedding:" ++ req.input

def modelsCacheKey : String := "models:all"

/-- LLMUsecase.Chat: cache lookup with checked type assertion, then the
client call, then a 1-hour cache write. No request validation happens
here. -/
def chatUc (env : LLMEnv) (req : LLMRequest) : UcOut LLMCall LLMResponse :=
  let cacheKey := chatCacheKey req
  match env.cacheGet cacheKey with
  | some (CVal.chat response) => ⟨.ok response, [], []⟩
  | _ =>
    match env.chatClient req with
    | .error e => ⟨.error e, [LLMCall.chat req], []⟩
    | .ok response =>
      ⟨.ok response, [LLMCall.chat req], [⟨cacheKey, CVal.chat response, 3600⟩]⟩

/-- LLMUsecase.Completion: same cache-aside shape, 1-hour TTL. -/
def completionUc (env : LLMEnv) (req : CompletionRequest) :
    UcOut LLMCall CompletionResponse :=
  let cacheKey := completionCacheKey req
  match env.cacheGet cacheKey with
  | some (CVal.completion response) => ⟨.ok response, [], []⟩
  | _ =>
    match env.completionClient req with
    | .error e => ⟨.error e, [LLMCall.completion req], []⟩
    | .ok response =>
      ⟨.ok response, [LLMCall.completion req], [⟨cacheKey, CVal.completion response, 3600⟩]⟩

/-- LLMUsecase.Embedding: same cache-aside shape, 24-hour TTL. -/
def embeddingUc (env : LLMEnv) (req : EmbeddingRequest) :
    UcOut LLMCall EmbeddingResponse :=
  let cacheKey := embeddingCacheKey req
  match env.cacheGet cacheKey with
  | some (CVal.embedding response) => ⟨.ok response, [], []⟩
  | _ =>
    match env.embeddingClient req with
    | .error e => ⟨.error e, [LLMCall.embedding req], []⟩
    | .ok response =>
      ⟨.ok response, [LLMCall.embedding req], [⟨cacheKey, CVal.embedding response, 86400⟩]⟩

/-- LLMUsecase.ListModels: same cache-aside shape, 1-hour TTL, fixed key. -/
def listModelsUc (env : LLMEnv) : UcOut LLMCall (List LLMModel) :=
  match env.cacheGet modelsCacheKey with
  | some (CVal.models l) => ⟨.ok l, [], []⟩
  | _ =>
    match env.modelsClient () with
    | .error e => ⟨.error e, [LLMCall.listModels], []⟩
    | .ok l =>
      ⟨.ok l, [LLMCall.listModels], [⟨modelsCacheKey, CVal.models l, 3600⟩]⟩

/-- Outcome of the HTTP chat handler (internal/delivery/http/llm_handler.go
Chat), after a successful JSON bind. -/
inductive HandlerResult where
  | badRequest (message : String)
  | okResponse (r : LLMResponse)
  | failed (e : AppError)
deriving DecidableEq, Repr

/-- LLMHandler.Chat (llm_handler.go lines 27-57), JSON binding aside: an
empty Messages list is rejected with a 400 before the usecase is invoked;
otherwise the usecase runs and its result is mapped to a reply. -/
def llmHandlerChat (env : LLMEnv) (req : LLMRequest) :
    HandlerResult × List LLMCall × List CacheWrite :=
  if req.messages.length = 0 then
    (.badRequest "At least one message is required", [], [])
  else
    let out := chatUc env req
    match out.result with
    | .error e => (.failed e, out.calls, out.writes)
    | .ok r => (.okResponse r, out.calls, out.writes)

/-! ## Ollama response parsing (src/unnamed/part_009)

A decoded `map[string]interface{}` JSON body is modelled as an association
list of `JVal`. encoding/json decodes every JSON number to `float64`;
those are modelled as `Rat` (the embedded code only defaults, adds and
truncates them, all exact on the values JSON can carry). A JSON `null`
decodes to a nil `interface{}` in Go, indistinguishable at the use sites
from an absent key, so both are modelled as a failed lookup. -/

inductive JVal where
  | str (s : String)
  | num (q : Rat)
  | boolean (b : Bool)
  | obj (fields : List (String × JVal))
  | arr (xs : List JVal)

/-- Go map read `m["key"]`: the value, or nil when absent. -/
def jLookup : List (String × JVal) → String → Option JVal
  | [], _ => none
  | (k, v) :: rest, key => if k = key then some v else jLookup rest key

/-- errors.SafeMapAssert on a possibly-nil `interface{}`. -/
def safeMapAssert (v : Option JVal) : Except AppError (List (String × JVal)) :=
  match v with
  | none => .error ⟨"TYPE_ASSERTION_ERROR", "value is nil"⟩
  | some (JVal.obj fields) => .ok fields
  | some _ => .error ⟨"TYPE_ASSERTION_ERROR", "invalid type"⟩

/-- errors.SafeStringAssert on a possibly-nil `interface{}`. -/
def safeStringAssert (v : Option JVal) : Except AppError String :=
  match v with
  | none => .error ⟨"TYPE_ASSERTION_ERROR", "value is nil"⟩
  | some (JVal.str s) => .ok s
  | some _ => .error ⟨"TYPE_ASSERTION_ERROR", "invalid type"⟩

/-- errors.SafeFloat64Assert on a possibly-nil `interface{}`: returns the
pair (value, error); the value is 0 whenever an error is also returned.
The parse call sites discard the error component. -/
def safeFloat64Assert (v : Option JVal) : Rat × Option AppError :=
  match v with
  | none => (0, some ⟨"TYPE_ASSERTION_ERROR", "value is nil"⟩)
  | some (JVal.num q) => (q, none)
  | some _ => (0, some ⟨"TYPE_ASSERTION_ERROR", "invalid type"⟩)

/-- Go's float64-to-int conversion: truncation toward zero. -/
def goInt (q : Rat) : Int :=
  q.num.tdiv (q.den : Int)

/-- OllamaClient.parseChatResponse (part_009 lines 261-303) on a decoded
body: require `message.content`, default the two token counts to 0 when
missing or mistyped, and build the response. The generated ID and the
`time.Now()` timestamp are passed in explicitly. -/
def parseChatResponse (body : List (String × JVal)) (id : String) (created : Int)
    (model : String) : Except AppError LLMResponse := do
  let messageData ← safeMapAssert (jLookup body "message")
  let content ← safeStringAssert (jLookup messageData "content")
  let promptTokens := (safeFloat64Assert (jLookup body "prompt_eval_count")).1
  let completionTokens := (safeFloat64Assert (jLookup body "eval_count")).1
  .ok
    { id := id
      object := "chat.completion"
      created := created
      model := model
      choices := [⟨0, ⟨"assistant", content⟩, ⟨"", ""⟩⟩]
      usage :=
        { promptTokens := goInt promptTokens
          completionTokens := goInt completionTokens
          totalTokens := goInt (promptTokens + completionTokens) }
      err := none }

/-- OllamaClient.parseCompletionResponse (part_009 lines 305-341): require
the `response` text, default the token counts, build the response. -/
def parseCompletionResponse (body : List (String × JVal)) (id : String) (created : Int)
    (model : String) : Except AppError CompletionResponse := do
  let responseText ← safeStringAssert (jLookup body "response")
  let promptTokens := (safeFloat64Assert (jLookup body "prompt_eval_count")).1
  let completionTokens := (safeFloat64Assert (jLookup body "eval_count")).1
  .ok
    { id := id
      object := "text_completion"
      created := created
      model := model
      choices := [⟨0, ⟨"assistant", responseText⟩, ⟨"", ""⟩⟩]
      usage :=
        { promptTokens := goInt promptTokens
          completionTokens := goInt completionTokens
          totalTokens := goInt (promptTokens + completionTokens) } }

/-! ## In-memory TTL cache -/

/-- Modelled from the spec: the `pkg/cache` MemoryCache implementation is
not among the sources (only the `domain.Cache` interface in
src/unnamed/part_012 and its construction in internal/container). Per
spec §4.1 / §3 CacheEntry: a map from key to (value, absolute expiry);
`Set` stores now + ttl seconds and overwrites any existing entry; `Get`
treats an entry whose expiry is in the past as absent without physically
removing it. Time is an explicit integer parameter. -/
structure MemoryCache where
  entries : List (String × CVal × Int)
deriving Repr

/-- Modelled from the spec: Set(key, value, ttl) at time `now` — expiry is
now + ttl, any previous entry for the key is overwritten. -/
def MemoryCache.set (c : MemoryCache) (key : String) (v : CVal) (ttl now : Int) :
    MemoryCache :=
  ⟨(key, v, now + ttl) :: c.entries.filter (fun e => e.1 ≠ key)⟩

/-- Modelled from the spec: Get(key) at time `now` — the stored value if
the key is present and not expired, otherwise absent. An entry is expired
once its expiry is in the past. -/
def MemoryCache.get (c : MemoryCache) (key : String) (now : Int) : Option CVal :=
  match c.entries.find? (fun e => e.1 = key) with
  | some (_, v, expiry) => if expiry < now then none else some v
  | none => none

/-! ## Keyword extraction (encyclopedia_usecase.go, extractKeywords)

`strings.ToLower` is modelled on its ASCII case mapping (the letter range
the theorems exercise); `strings.Fields` splits around runs of Go
whitespace; `strings.Trim(w, ".,!?;:\x22()[]\x7b\x7d")` drops leading and
trailing cutset characters; `len` on these ASCII strings equals the
character count. The word-count map is a Go `map[string]int`, whose
iteration order is unspecified and varies between runs, so the final
collection loop is modelled as iterating an explicit `order` enumerating
the map's keys. -/

/-- The 26 ASCII uppercase letters. -/
def upperChars : List Char :=
  ['A', 'B', 'C', 'D', 'E', 'F', 'G', 'H', 'I', 'J', 'K', 'L', 'M',
   'N', 'O', 'P', 'Q', 'R', 'S', 'T', 'U', 'V', 'W', 'X', 'Y', 'Z']

/-- ASCII case mapping of strings.ToLower. -/
def lowerChar (c : Char) : Char :=
  match c with
  | 'A' => 'a' | 'B' => 'b' | 'C' => 'c' | 'D' => 'd' | 'E' => 'e'
  | 'F' => 'f' | 'G' => 'g' | 'H' => 'h' | 'I' => 'i' | 'J' => 'j'
  | 'K' => 'k' | 'L' => 'l' | 'M' => 'm' | 'N' => 'n' | 'O' => 'o'
  | 'P' => 'p' | 'Q' => 'q' | 'R' => 'r' | 'S' => 's' | 'T' => 't'
  | 'U' => 'u' | 'V' => 'v' | 'W' => 'w' | 'X' => 'x' | 'Y' => 'y'
  | 'Z' => 'z'
  | c => c

/-- strings.ToLower (ASCII range). -/
def goToLower (s : String) : String :=
  ⟨s.data.map lowerChar⟩

/-- Go's unicode.IsSpace on the ASCII whitespace characters
strings.Fields splits on. -/
def goIsSpace (c : Char) : Bool :=
  c = ' ' || c = '\t' || c = '\n' || c = '\x0b' || c = '\x0c' || c = '\r'

/-- Splitting a character list around runs of whitespace; `acc` holds the
current field, reversed. -/
def fieldsAux : List Char → List Char → List (List Char)
  | [], acc => if acc.isEmpty then [] else [acc.reverse]
  | c :: cs, acc =>
    if goIsSpace c then
      if acc.isEmpty then fieldsAux cs [] else acc.reverse :: fieldsAux cs []
    else fieldsAux cs (c :: acc)

/-- strings.Fields. -/
def goFields (s : String) : List String :=
  (fieldsAux s.data []).map String.mk

/-- The cutset of strings.Trim in extractKeywords: `.,!?;:"()[]` plus the
two curly brackets. -/
def trimCutset : List Char :=
  ['.', ',', '!', '?', ';', ':', '"', '(', ')', '[', ']', '\x7b', '\x7d']

/-- strings.Trim(w, cutset): drop cutset characters from both ends. -/
def goTrim (w : String) : String :=
  ⟨((w.data.dropWhile (trimCutset.contains ·)).reverse.dropWhile
      (trimCutset.contains ·)).reverse⟩

/-- The stop-word set of extractKeywords. -/
def stopWordsList : List String :=
  ["the", "a", "an", "and", "or", "but", "in", "on", "at", "to", "for",
   "of", "with", "by", "is", "are", "was", "were"]

/-- A cleaned word enters the count map iff it is longer than 3 bytes and
not a stop word. -/
def isQualifying (w : String) : Bool :=
  3 < w.length && !(decide (w ∈ stopWordsList))

/-- The cleaned qualifying words of the content, in text order — the
multiset the count map `keywordMap` is built from. -/
def qualifyingWords (content : String) : List String :=
  ((goFields (goToLower content)).map goTrim).filter isQualifying

/-- The key set of `keywordMap`, as a duplicate-free list. -/
def keywordMapKeys (content : String) : List String :=
  (qualifyingWords content).dedup

/-- The count `keywordMap[w]`. -/
def keywordCount (content : String) (w : String) : Nat :=
  (qualifyingWords content).count w

/-- Whether `order` is a possible Go map iteration order of `keywordMap`: an
enumeration of its keys. -/
def ValidIterationOrder (content : String) (order : List String) : Prop :=
  order.Perm (keywordMapKeys content)

/-- extractKeywords (encyclopedia_usecase.go lines 271-300), with the map
iteration order made explicit: keep the keys whose count exceeds 1, in
iteration order, truncated to the first 10. -/
def extractKeywords (content : String) (order : List String) : List String :=
  let keywords := order.filter (fun w => 1 < keywordCount content w)
  if keywords.length > 10 then keywords.take 10 else keywords

instance (content : String) (order : List String) :
    Decidable (ValidIterationOrder content order) := by
  unfold ValidIterationOrder
  infer_instance

/-- The cache state seen by a later request after a run's `Set` calls were
applied (in order, later writes overwriting earlier ones) on top of the
cache contents `g` the run started from. -/
def applyWrites (ws : List CacheWrite) (g : String → Option CVal) :
    String → Option CVal :=
  fun k =>
    match ws.reverse.find? (fun w => w.key = k) with
    | some w => some w.value
    | none => g k

/-! ## Helper lemmas -/

theorem searchParallel_merge (cancelled : Bool)
    (wiki brit : String → String → Int → Except AppError (List EncyclopediaSearchResult))
    (q l : String) (m : Int) (sched : List Provider) (hs : TwoTaskSchedule sched) :
    (searchParallel cancelled wiki brit q l m sched).2.1 =
      taskContribution cancelled (wiki q l (m.tdiv 2)) ++
        taskContribution cancelled (brit q l (m.tdiv 2)) := by
  rcases hs with h | h <;> subst h <;> cases cancelled <;>
    cases hw : wiki q l (m.tdiv 2) <;> cases hb : brit q l (m.tdiv 2) <;>
      simp [searchParallel, runTask, taskContribution, recvClosed, hw, hb]

theorem searchParallel_callLog (cancelled : Bool)
    (wiki brit : String → String → Int → Except AppError (List EncyclopediaSearchResult))
    (q l : String) (m : Int) (sched : List Provider) (hs : TwoTaskSchedule sched) :
    (searchParallel cancelled wiki brit q l m sched).1.callLog =
      if cancelled then []
      else sched.map (fun p => EncCall.search p q l (m.tdiv 2)) := by
  rcases hs with h | h <;> subst h <;> cases cancelled <;>
    cases hw : wiki q l (m.tdiv 2) <;> cases hb : brit q l (m.tdiv 2) <;>
      simp [searchParallel, runTask, hw, hb]

theorem enc_writes_spec (env : EncEnv) (req : EncyclopediaSearchRequest)
    (r : EncyclopediaSearchResponse)
    (hmiss : env.cacheGet (searchCacheKey (applySearchDefaults req)) = none)
    (hok : (searchEncyclopedia env req).result = .ok r)
    (hw : (searchEncyclopedia env req).writes ≠ []) :
    (searchEncyclopedia env req).writes =
      [⟨searchCacheKey (applySearchDefaults req), CVal.search r, 3600⟩] ∧
      r.source = (applySearchDefaults req).source := by
  simp only [searchEncyclopedia, hmiss] at hok hw ⊢
  split_ifs at hok hw ⊢ with h1 h2 h3
  · rcases hcall : env.wikiSearch (applySearchDefaults req).query
        (applySearchDefaults req).language (applySearchDefaults req).maxResults with e | rs <;>
      simp [hcall] at hok hw ⊢ <;> simp [← hok, h1]
  · rcases hcall : env.britSearch (applySearchDefaults req).query
        (applySearchDefaults req).language (applySearchDefaults req).maxResults with e | rs <;>
      simp [hcall] at hok hw ⊢ <;> simp [← hok, h2]
  · simp at hok
    simp [← hok, h3]
  · simp at hok
    simp [← hok]

theorem lowerChar_notMem_upper (c : Char) : lowerChar c ∉ upperChars := by
  unfold lowerChar upperChars
  split <;> simp_all

theorem fieldsAux_chars (cs : List Char) :
    ∀ acc w, w ∈ fieldsAux cs acc → ∀ c ∈ w, c ∈ cs ∨ c ∈ acc := by
  induction cs with
  | nil =>
    intro acc w hw c hc
    unfold fieldsAux at hw
    split at hw
    · simp at hw
    · simp at hw
      subst hw
      simp at hc
      exact Or.inr hc
  | cons x cs ih =>
    intro acc w hw c hc
    unfold fieldsAux at hw
    split at hw
    · split at hw
      · rcases ih [] w hw c hc with h | h
        · exact Or.inl (List.mem_cons_of_mem _ h)
        · simp at h
      · rcases List.mem_cons.mp hw with h | h
        · subst h
          simp at hc
          exact Or.inr hc
        · rcases ih [] w h c hc with h' | h'
          · exact Or.inl (List.mem_cons_of_mem _ h')
          · simp at h'
    · rcases ih (x :: acc) w hw c hc with h | h
      · exact Or.inl (List.mem_cons_of_mem _ h)
      · rcases List.mem_cons.mp h with h' | h'
        · subst h'
          exact Or.inl (List.mem_cons_self _ _)
        · exact Or.inr h'

theorem goFields_chars (s : String) (w : String) (hw : w ∈ goFields s) :
    ∀ c ∈ w.data, c ∈ s.data := by
  intro c hc
  unfold goFields at hw
  rcases List.mem_map.mp hw with ⟨l, hl, rfl⟩
  rcases fieldsAux_chars s.data [] l hl c hc with h | h
  · exact h
  · simp at h

theorem goTrim_chars (w : String) : ∀ c ∈ (goTrim w).data, c ∈ w.data := by
  intro c hc
  unfold goTrim at hc
  simp only [List.mem_reverse] at hc
  have h1 := (List.dropWhile_sublist (l := (w.data.dropWhile (trimCutset.contains ·)).reverse)
    (p := (trimCutset.contains ·))).subset hc
  simp only [List.mem_reverse] at h1
  exact (List.dropWhile_sublist (p := (trimCutset.contains ·))).subset h1

theorem goToLower_chars (s : String) : ∀ c ∈ (goToLower s).data, c ∉ upperChars := by
  intro c hc
  unfold goToLower at hc
  rcases List.mem_map.mp hc with ⟨a, _, rfl⟩
  exact lowerChar_notMem_upper a

theorem qualifyingWords_spec (content : String) (w : String)
    (hw : w ∈ qualifyingWords content) :
    (3 < w.length ∧ w ∉ stopWordsList) ∧ ∀ c ∈ w.data, c ∉ upperChars := by
  unfold qualifyingWords at hw
  rcases List.mem_filter.mp hw with ⟨hmem, hq⟩
  unfold isQualifying at hq
  simp only [Bool.and_eq_true, decide_eq_true_eq, Bool.not_eq_true',
    decide_eq_false_iff_not] at hq
  refine ⟨hq, ?_⟩
  rcases List.mem_map.mp hmem with ⟨w', hw', rfl⟩
  intro c hc
  exact goToLower_chars content c (goFields_chars _ _ hw' c (goTrim_chars w' c hc))

theorem goInt_add_whole (p c : Rat) (hp : p.den = 1) (hc : c.den = 1) :
    goInt (p + c) = goInt p + goInt c := by
  have hp' := Rat.coe_int_num_of_den_eq_one hp
  have hc' := Rat.coe_int_num_of_den_eq_one hc
  have hsum : p + c = ((p.num + c.num : Int) : Rat) := by
    rw [Int.cast_add, hp', hc']
  have gz : ∀ z : Int, goInt ((z : Int) : Rat) = z := by
    intro z
    simp [goInt, Rat.num_intCast, Rat.den_intCast]
  have e1 : goInt p = p.num := by
    simp [goInt, hp]
  have e2 : goInt c = c.num := by
    simp [goInt, hc]
  rw [hsum, gz, e1, e2]

/-! ## Witness fixtures -/

/-- A generic provider failure, as pkg/errors wraps it. -/
def provErr : AppError := ⟨"ENCYCLOPEDIA_SERVICE_ERROR", "provider down"⟩

/-- An encyclopedia environment where every lookup misses and every
upstream call fails; witnesses override the fields they exercise. -/
def baseEncEnv : EncEnv :=
  { cacheGet := fun _ => none
    wikiSearch := fun _ _ _ => .error provErr
    britSearch := fun _ _ _ => .error provErr
    wikiGetArticle := fun _ _ => .error provErr
    britGetArticle := fun _ _ => .error provErr
    ctxCancelled := false
    sched := [Provider.wikipedia, Provider.britannica] }

/-- An LLM environment where every lookup misses and every upstream call
fails; witnesses override the fields they exercise. -/
def baseLLMEnv : LLMEnv :=
  { cacheGet := fun _ => none
    chatClient := fun _ => .error ⟨"LLM_SERVICE_ERROR", "ollama down"⟩
    completionClient := fun _ => .error ⟨"LLM_SERVICE_ERROR", "ollama down"⟩
    embeddingClient := fun _ => .error ⟨"LLM_SERVICE_ERROR", "ollama down"⟩
    modelsClient := fun _ => .error ⟨"LLM_SERVICE_ERROR", "ollama down"⟩ }

def wikiHit : EncyclopediaSearchResult :=
  ⟨"Artificial intelligence", "https://en.wikipedia.org/wiki/AI", "snippet",
    "wikipedia", "en", ⟨9, 10, by norm_num, by norm_num⟩⟩

def britHit : EncyclopediaSearchResult :=
  ⟨"artificial intelligence", "https://www.britannica.com/ai", "",
    "britannica", "en", ⟨9, 10, by norm_num, by norm_num⟩⟩

def aiReq : EncyclopediaSearchRequest :=
  ⟨"artificial intelligence", "all", 4, "en", false⟩

/-! ## Claims -/

/-- C1: for every multi-source search (source "all" after defaulting, on a
cache miss, context live), a provider failure is absorbed: if exactly one
of the two providers errors, the response carries exactly the other
provider's results with TotalFound equal to their count and no error; if
both error, the response has an empty result list, TotalFound = 0, and no
error. -/
theorem searchAll_absorbs_provider_failures (env : EncEnv)
    (req : EncyclopediaSearchRequest)
    (hsrc : (applySearchDefaults req).source = "all")
    (hmiss : env.cacheGet (searchCacheKey (applySearchDefaults req)) = none)
    (hctx : env.ctxCancelled = false)
    (hsched : TwoTaskSchedule env.sched) :
    (∀ ws e,
      env.wikiSearch (applySearchDefaults req).query (applySearchDefaults req).language
          ((applySearchDefaults req).maxResults.tdiv 2) = .ok ws →
      env.britSearch (applySearchDefaults req).query (applySearchDefaults req).language
          ((applySearchDefaults req).maxResults.tdiv 2) = .error e →
      (searchEncyclopedia env req).result =
        .ok ⟨(applySearchDefaults req).query, ws, (ws.length : Int),
          (applySearchDefaults req).source, (applySearchDefaults req).language⟩) ∧
    (∀ e bs,
      env.wikiSearch (applySearchDefaults req).query (applySearchDefaults req).language
          ((applySearchDefaults req).maxResults.tdiv 2) = .error e →
      env.britSearch (applySearchDefaults req).query (applySearchDefaults req).language
          ((applySearchDefaults req).maxResults.tdiv 2) = .ok bs →
      (searchEncyclopedia env req).result =
        .ok ⟨(applySearchDefaults req).query, bs, (bs.length : Int),
          (applySearchDefaults req).source, (applySearchDefaults req).language⟩) ∧
    (∀ e₁ e₂,
      env.wikiSearch (applySearchDefaults req).query (applySearchDefaults req).language
          ((applySearchDefaults req).maxResults.tdiv 2) = .error e₁ →
      env.britSearch (applySearchDefaults req).query (applySearchDefaults req).language
          ((applySearchDefaults req).maxResults.tdiv 2) = .error e₂ →
      (searchEncyclopedia env req).result =
        .ok ⟨(applySearchDefaults req).query, [], 0,
          (applySearchDefaults req).source, (applySearchDefaults req).language⟩) := by
  have hmerge := searchParallel_merge env.ctxCancelled env.wikiSearch env.britSearch
    (applySearchDefaults req).query (applySearchDefaults req).language
    (applySearchDefaults req).maxResults env.sched hsched
  refine ⟨?_, ?_, ?_⟩ <;> intro x y hx hy <;>
    simp only [searchEncyclopedia, hmiss, hsrc] <;>
    simp [hctx, hctx ▸ hmerge, taskContribution, hx, hy]

/-- C1 witness: with Wikipedia returning one hit and Britannica failing,
the "all" search returns exactly the Wikipedia hit with TotalFound 1 and
no error; with both failing it returns the empty success response. -/
theorem searchAll_absorbs_provider_failures_witness :
    (applySearchDefaults aiReq).source = "all" ∧
    ({ baseEncEnv with wikiSearch := fun _ _ _ => .ok [wikiHit] } : EncEnv).cacheGet
        (searchCacheKey (applySearchDefaults aiReq)) = none ∧
    (searchEncyclopedia { baseEncEnv with wikiSearch := fun _ _ _ => .ok [wikiHit] } aiReq).result =
      .ok ⟨"artificial intelligence", [wikiHit], 1, "all", "en"⟩ ∧
    (searchEncyclopedia baseEncEnv aiReq).result =
      .ok ⟨"artificial intelligence", [], 0, "all", "en"⟩ :=
  ⟨rfl, rfl,
    (searchAll_absorbs_provider_failures
        { baseEncEnv with wikiSearch := fun _ _ _ => .ok [wikiHit] } aiReq
        rfl rfl rfl (Or.inl rfl)).1 [wikiHit] provErr rfl rfl,
    (searchAll_absorbs_provider_failures baseEncEnv aiReq
        rfl rfl rfl (Or.inl rfl)).2.2 provErr provErr rfl rfl⟩

/-- C2: the merged list of a parallel multi-source search is always the
Wikipedia task's contribution followed by the Britannica task's
contribution (provider registration order), and is therefore identical
across runs whose two goroutines complete in different orders. -/
theorem searchParallel_order_deterministic (cancelled : Bool)
    (wiki brit : String → String → Int → Except AppError (List EncyclopediaSearchResult))
    (q l : String) (m : Int) (sched₁ sched₂ : List Provider)
    (hs₁ : TwoTaskSchedule sched₁) (hs₂ : TwoTaskSchedule sched₂) :
    (searchParallel cancelled wiki brit q l m sched₁).2.1 =
      taskContribution cancelled (wiki q l (m.tdiv 2)) ++
        taskContribution cancelled (brit q l (m.tdiv 2)) ∧
    (searchParallel cancelled wiki brit q l m sched₁).2.1 =
      (searchParallel cancelled wiki brit q l m sched₂).2.1 :=
  ⟨searchParallel_merge cancelled wiki brit q l m sched₁ hs₁,
    (searchParallel_merge cancelled wiki brit q l m sched₁ hs₁).trans
      (searchParallel_merge cancelled wiki brit q l m sched₂ hs₂).symm⟩

/-- C2 witness: with Wikipedia finishing first on one run and last on the
other, both runs merge to [wikiHit, britHit]. -/
theorem searchParallel_order_deterministic_witness :
    (searchParallel false (fun _ _ _ => .ok [wikiHit]) (fun _ _ _ => .ok [britHit])
        "artificial intelligence" "en" 4 [Provider.wikipedia, Provider.britannica]).2.1 =
      [wikiHit, britHit] ∧
    (searchParallel false (fun _ _ _ => .ok [wikiHit]) (fun _ _ _ => .ok [britHit])
        "artificial intelligence" "en" 4 [Provider.wikipedia, Provider.britannica]).2.1 =
      (searchParallel false (fun _ _ _ => .ok [wikiHit]) (fun _ _ _ => .ok [britHit])
        "artificial intelligence" "en" 4 [Provider.britannica, Provider.wikipedia]).2.1 :=
  ⟨(searchParallel_order_deterministic false (fun _ _ _ => .ok [wikiHit])
      (fun _ _ _ => .ok [britHit]) "artificial intelligence" "en" 4
      [Provider.wikipedia, Provider.britannica] [Provider.britannica, Provider.wikipedia]
      (Or.inl rfl) (Or.inr rfl)).1,
    (searchParallel_order_deterministic false (fun _ _ _ => .ok [wikiHit])
      (fun _ _ _ => .ok [britHit]) "artificial intelligence" "en" 4
      [Provider.wikipedia, Provider.britannica] [Provider.britannica, Provider.wikipedia]
      (Or.inl rfl) (Or.inr rfl)).2⟩

/-- C3: each provider task of a (non-cancelled) parallel search calls its
provider's Search with exactly maxResults/2 in Go's truncated integer
division — the remainder is dropped, not redistributed — so maxResults = 5
gives each provider a share of 2 and, when each provider honours its
limit, at most 4 merged results. -/
theorem searchParallel_splits_max_results
    (wiki brit : String → String → Int → Except AppError (List EncyclopediaSearchResult))
    (q l : String) (m : Int) (sched : List Provider) (hs : TwoTaskSchedule sched) :
    (searchParallel false wiki brit q l m sched).1.callLog =
      sched.map (fun p => EncCall.search p q l (m.tdiv 2)) ∧
    (searchParallel false wiki brit q l 5 sched).1.callLog =
      sched.map (fun p => EncCall.search p q l 2) ∧
    (∀ ws bs, wiki q l 2 = .ok ws → brit q l 2 = .ok bs →
      ws.length ≤ 2 → bs.length ≤ 2 →
      (searchParallel false wiki brit q l 5 sched).2.1.length ≤ 4) := by
  have h5 : (5 : Int).tdiv 2 = 2 := by decide
  refine ⟨?_, ?_, ?_⟩
  · rw [searchParallel_callLog false wiki brit q l m sched hs]
    simp
  · rw [searchParallel_callLog false wiki brit q l 5 sched hs]
    simp [h5]
  · intro ws bs hws hbs hlw hlb
    rw [searchParallel_merge false wiki brit q l 5 sched hs]
    rw [h5, hws, hbs]
    simp only [taskContribution, List.length_append]
    simp only [Bool.false_eq_true, if_false]
    omega

/-- C3 witness: at maxResults 5, both providers are called with limit 2
and two two-element answers merge to at most 4 results. -/
theorem searchParallel_splits_max_results_witness :
    (searchParallel false (fun _ _ _ => .ok [wikiHit, wikiHit])
        (fun _ _ _ => .ok [britHit, britHit]) "artificial intelligence" "en" 5
        [Provider.wikipedia, Provider.britannica]).1.callLog =
      [EncCall.search Provider.wikipedia "artificial intelligence" "en" 2,
        EncCall.search Provider.britannica "artificial intelligence" "en" 2] ∧
    (searchParallel false (fun _ _ _ => .ok [wikiHit, wikiHit])
        (fun _ _ _ => .ok [britHit, britHit]) "artificial intelligence" "en" 5
        [Provider.wikipedia, Provider.britannica]).2.1.length ≤ 4 :=
  ⟨(searchParallel_splits_max_results (fun _ _ _ => .ok [wikiHit, wikiHit])
      (fun _ _ _ => .ok [britHit, britHit]) "artificial intelligence" "en" 5
      [Provider.wikipedia, Provider.britannica] (Or.inl rfl)).2.1,
    (searchParallel_splits_max_results (fun _ _ _ => .ok [wikiHit, wikiHit])
      (fun _ _ _ => .ok [britHit, britHit]) "artificial intelligence" "en" 5
      [Provider.wikipedia, Provider.britannica] (Or.inl rfl)).2.2
      [wikiHit, wikiHit] [britHit, britHit] rfl rfl (by decide) (by decide)⟩

/-- C4: for each of the six cached operations, a cache lookup that returns
a stored value of the operation's expected response type makes the
operation return that value unchanged with no upstream call and no cache
write. -/
theorem cache_hit_returns_cached_without_side_effects :
    (∀ (env : EncEnv) (req : EncyclopediaSearchRequest) (r : EncyclopediaSearchResponse),
      env.cacheGet (searchCacheKey (applySearchDefaults req)) = some (CVal.search r) →
      searchEncyclopedia env req = ⟨.ok r, [], []⟩) ∧
    (∀ (env : EncEnv) (req : EncyclopediaArticleRequest) (r : EncyclopediaArticleResponse),
      env.cacheGet (articleCacheKey (applyArticleDefaults req)) = some (CVal.article r) →
      getArticle env req = ⟨.ok r, [], []⟩) ∧
    (∀ (env : LLMEnv) (req : LLMRequest) (r : LLMResponse),
      env.cacheGet (chatCacheKey req) = some (CVal.chat r) →
      chatUc env req = ⟨.ok r, [], []⟩) ∧
    (∀ (env : LLMEnv) (req : CompletionRequest) (r : CompletionResponse),
      env.cacheGet (completionCacheKey req) = some (CVal.completion r) →
      completionUc env req = ⟨.ok r, [], []⟩) ∧
    (∀ (env : LLMEnv) (req : EmbeddingRequest) (r : EmbeddingResponse),
      env.cacheGet (embeddingCacheKey req) = some (CVal.embedding r) →
      embeddingUc env req = ⟨.ok r, [], []⟩) ∧
    (∀ (env : LLMEnv) (l : List LLMModel),
      env.cacheGet modelsCacheKey = some (CVal.models l) →
      listModelsUc env = ⟨.ok l, [], []⟩) := by
  refine ⟨?_, ?_, ?_, ?_, ?_, fun env l h => by simp [listModelsUc, h]⟩ <;>
    intro env x r h <;>
    first
    | simp [searchEncyclopedia, h]
    | simp [getArticle, h]
    | simp [chatUc, h]
    | simp [completionUc, h]
    | simp [embeddingUc, h]

def c4SearchResp : EncyclopediaSearchResponse := ⟨"go", [wikiHit], 1, "wikipedia", "en"⟩

def c4Article : EncyclopediaArticle :=
  ⟨"Go", "https://en.wikipedia.org/wiki/Go", "wikipedia", "en", "text", "sum", [], [], "", 1⟩

def c4ArticleResp : EncyclopediaArticleResponse := ⟨c4Article, [], "wikipedia", "en"⟩

def c4ChatReq : LLMRequest := ⟨[⟨"user", "hi"⟩], "llama2", 0, 0, false⟩

def c4ChatResp : LLMResponse :=
  ⟨"id", "chat.completion", 0, "llama2", [⟨0, ⟨"assistant", "hello"⟩, ⟨"", ""⟩⟩], ⟨1, 2, 3⟩, none⟩

def c4CompReq : CompletionRequest := ⟨"hello", "llama2", 0, 0, ""⟩

def c4CompResp : CompletionResponse :=
  ⟨"id", "text_completion", 0, "llama2", [⟨0, ⟨"assistant", "txt"⟩, ⟨"", ""⟩⟩], ⟨1, 2, 3⟩⟩

def c4EmbReq : EmbeddingRequest := ⟨"hello", "x"⟩

def c4EmbResp : EmbeddingResponse := ⟨"list", [⟨"embedding", [], 0⟩], "x", ⟨1, 0, 1⟩⟩

def c4Models : List LLMModel := [⟨"llama2", "model", 0, "ollama"⟩]

/-- C4 witness: each operation, run against a cache holding a value of its
expected type under its own key, returns that value with no upstream call
and no write. -/
theorem cache_hit_returns_cached_without_side_effects_witness :
    searchEncyclopedia { baseEncEnv with cacheGet := fun _ => some (CVal.search c4SearchResp) }
        ⟨"go", "wikipedia", 5, "en", false⟩ = ⟨.ok c4SearchResp, [], []⟩ ∧
    getArticle { baseEncEnv with cacheGet := fun _ => some (CVal.article c4ArticleResp) }
        ⟨"Go", "", "wikipedia", "en", false, 100⟩ = ⟨.ok c4ArticleResp, [], []⟩ ∧
    chatUc { baseLLMEnv with cacheGet := fun _ => some (CVal.chat c4ChatResp) } c4ChatReq =
      ⟨.ok c4ChatResp, [], []⟩ ∧
    completionUc { baseLLMEnv with cacheGet := fun _ => some (CVal.completion c4CompResp) }
        c4CompReq = ⟨.ok c4CompResp, [], []⟩ ∧
    embeddingUc { baseLLMEnv with cacheGet := fun _ => some (CVal.embedding c4EmbResp) }
        c4EmbReq = ⟨.ok c4EmbResp, [], []⟩ ∧
    listModelsUc { baseLLMEnv with cacheGet := fun _ => some (CVal.models c4Models) } =
      ⟨.ok c4Models, [], []⟩ :=
  ⟨cache_hit_returns_cached_without_side_effects.1 _ _ _ rfl,
    cache_hit_returns_cached_without_side_effects.2.1 _ _ _ rfl,
    cache_hit_returns_cached_without_side_effects.2.2.1 _ _ _ rfl,
    cache_hit_returns_cached_without_side_effects.2.2.2.1 _ _ _ rfl,
    cache_hit_returns_cached_without_side_effects.2.2.2.2.1 _ _ _ rfl,
    cache_hit_returns_cached_without_side_effects.2.2.2.2.2 _ _ rfl⟩

/-- C5: Set(k, v, ttl) followed by Get(k) before the ttl elapses returns
the value; after the ttl elapses Get(k) reports the key absent even
though the entry still physically sits in the store. -/
theorem memoryCache_set_get_ttl (c : MemoryCache) (k : String) (v : CVal)
    (ttl t0 t1 t2 : Int) (httl : 0 < ttl) (hfwd : t0 ≤ t1)
    (hbefore : t1 < t0 + ttl) (hafter : t0 + ttl < t2) :
    (c.set k v ttl t0).get k t1 = some v ∧
    (c.set k v ttl t0).get k t2 = none ∧
    (c.set k v ttl t0).entries.find? (fun e => e.1 = k) = some (k, v, t0 + ttl) := by
  have hfind : (c.set k v ttl t0).entries.find? (fun e => e.1 = k) = some (k, v, t0 + ttl) := by
    simp [MemoryCache.set, List.find?]
  refine ⟨?_, ?_, hfind⟩
  · simp only [MemoryCache.get, hfind]
    rw [if_neg (by omega)]
  · simp only [MemoryCache.get, hfind]
    rw [if_pos (by omega)]

/-- C5 witness: store under a key at time 0 with a 3600-second ttl; read
back at time 10 (hit) and at time 4000 (expired, though still present). -/
theorem memoryCache_set_get_ttl_witness :
    ((⟨[]⟩ : MemoryCache).set "models:all" (CVal.models c4Models) 3600 0).get "models:all" 10 =
      some (CVal.models c4Models) ∧
    ((⟨[]⟩ : MemoryCache).set "models:all" (CVal.models c4Models) 3600 0).get "models:all" 4000 =
      none ∧
    ((⟨[]⟩ : MemoryCache).set "models:all" (CVal.models c4Models) 3600 0).entries.find?
      (fun e => e.1 = "models:all") = some ("models:all", CVal.models c4Models, 3600) :=
  memoryCache_set_get_ttl ⟨[]⟩ "models:all" (CVal.models c4Models) 3600 0 10 4000
    (by decide) (by decide) (by decide) (by decide)

def c6Req : LLMRequest := ⟨[], "llama2", 0, 0, false⟩

def c6Resp : LLMResponse :=
  ⟨"id", "chat.completion", 0, "llama2", [⟨0, ⟨"assistant", "ok"⟩, ⟨"", ""⟩⟩], ⟨0, 0, 0⟩, none⟩

def c6Env : LLMEnv := { baseLLMEnv with chatClient := fun _ => .ok c6Resp }

/-- C6 counterexample: a ChatRequest with an empty Messages list, on a
cache miss, is NOT rejected by the LLM usecase's Chat: the usecase calls
the upstream client, returns the client's reply with no InvalidInput
error, and populates the cache for the request. -/
theorem chatUc_forwards_empty_messages :
    c6Req.messages = [] ∧
    chatUc c6Env c6Req =
      ⟨.ok c6Resp, [LLMCall.chat c6Req],
        [⟨chatCacheKey c6Req, CVal.chat c6Resp, 3600⟩]⟩ :=
  ⟨rfl, rfl⟩

/-- C6 amended: the empty-Messages check lives in the HTTP delivery
handler, which rejects the request with a 400 before the usecase (and
hence any upstream client) is reached; the usecase itself performs no
validation and, on a cache miss, forwards even an empty-Messages request
upstream. -/
theorem empty_messages_rejected_in_handler_not_usecase (env : LLMEnv) (req : LLMRequest)
    (hempty : req.messages = []) :
    llmHandlerChat env req = (.badRequest "At least one message is required", [], []) ∧
    (env.cacheGet (chatCacheKey req) = none →
      (chatUc env req).calls = [LLMCall.chat req]) := by
  constructor
  · simp [llmHandlerChat, hempty]
  · intro h
    rcases hc : env.chatClient req with e | r <;> simp [chatUc, h, hc]

/-- C6 amended witness: the handler rejects the concrete empty-Messages
request without side effects, while the usecase alone forwards it
upstream. -/
theorem empty_messages_rejected_in_handler_not_usecase_witness :
    c6Req.messages = [] ∧
    llmHandlerChat c6Env c6Req = (.badRequest "At least one message is required", [], []) ∧
    (chatUc c6Env c6Req).calls = [LLMCall.chat c6Req] :=
  ⟨rfl, (empty_messages_rejected_in_handler_not_usecase c6Env c6Req rfl).1,
    (empty_messages_rejected_in_handler_not_usecase c6Env c6Req rfl).2 rfl⟩

/-- C7 counterexample: extractKeywords is not a function of the content
alone — two valid Go map iteration orders over the same content give
different output lists, so two calls on identical input need not return
identical lists. -/
theorem extractKeywords_order_dependent :
    ValidIterationOrder "aaaa aaaa bbbb bbbb" ["aaaa", "bbbb"] ∧
    ValidIterationOrder "aaaa aaaa bbbb bbbb" ["bbbb", "aaaa"] ∧
    extractKeywords "aaaa aaaa bbbb bbbb" ["aaaa", "bbbb"] ≠
      extractKeywords "aaaa aaaa bbbb bbbb" ["bbbb", "aaaa"] :=
  ⟨by decide, by decide, by decide⟩

/-- C7 amended: for every content and every map iteration order, the
extracted list has at most 10 items, each longer than 3 characters, none a
stop word, none containing an ASCII uppercase letter, and each occurring
more than once among the lowercased punctuation-trimmed words; but the
list depends on the unspecified iteration order, so only runs that happen
to share an order are guaranteed identical outputs. -/
theorem extractKeywords_spec (content : String) (order : List String)
    (h : ValidIterationOrder content order) :
    (extractKeywords content order).length ≤ 10 ∧
    ∀ w ∈ extractKeywords content order,
      3 < w.length ∧ w ∉ stopWordsList ∧ 1 < keywordCount content w ∧
        ∀ c ∈ w.data, c ∉ upperChars := by
  constructor
  · simp only [extractKeywords]
    split
    · simp
    · omega
  · intro w hw
    have hfilter : w ∈ order.filter (fun w => 1 < keywordCount content w) := by
      simp only [extractKeywords] at hw
      split at hw
      · exact List.take_subset _ _ hw
      · exact hw
    rcases List.mem_filter.mp hfilter with ⟨horder, hcount⟩
    have hkeys : w ∈ keywordMapKeys content := h.mem_iff.mp horder
    have hqual : w ∈ qualifyingWords content := List.mem_dedup.mp hkeys
    have hspec := qualifyingWords_spec content w hqual
    simp only [decide_eq_true_eq] at hcount
    exact ⟨hspec.1.1, hspec.1.2, hcount, hspec.2⟩

/-- C7 amended witness: the properties hold at a concrete content and
iteration order. -/
theorem extractKeywords_spec_witness :
    ValidIterationOrder "aaaa aaaa bbbb bbbb" ["aaaa", "bbbb"] ∧
    ((extractKeywords "aaaa aaaa bbbb bbbb" ["aaaa", "bbbb"]).length ≤ 10 ∧
      ∀ w ∈ extractKeywords "aaaa aaaa bbbb bbbb" ["aaaa", "bbbb"],
        3 < w.length ∧ w ∉ stopWordsList ∧ 1 < keywordCount "aaaa aaaa bbbb bbbb" w ∧
          ∀ c ∈ w.data, c ∉ upperChars) :=
  ⟨by decide, extractKeywords_spec "aaaa aaaa bbbb bbbb" ["aaaa", "bbbb"] (by decide)⟩

def threeHalves : Rat := ⟨3, 2, by norm_num, by norm_num⟩

/-- A decoded chat reply whose token-count fields carry the non-integral
float 1.5 — a value a JSON number field can hold. -/
def c8FracBody : List (String × JVal) :=
  [("message", JVal.obj [("content", JVal.str "hi")]),
   ("prompt_eval_count", JVal.num threeHalves),
   ("eval_count", JVal.num threeHalves)]

def c8FracResp : LLMResponse :=
  ⟨"chatcmpl-1", "chat.completion", 0, "llama2",
    [⟨0, ⟨"assistant", "hi"⟩, ⟨"", ""⟩⟩], ⟨1, 1, 3⟩, none⟩

/-- C8 counterexample: parseChatResponse truncates each token count
separately but truncates their sum for TotalTokens, so an upstream reply
with prompt_eval_count = eval_count = 1.5 yields Usage{1, 1, 3} with
3 ≠ 1 + 1. -/
theorem parseChatResponse_fractional_counterexample :
    parseChatResponse c8FracBody "chatcmpl-1" 0 "llama2" = .ok c8FracResp ∧
    c8FracResp.usage.totalTokens ≠
      c8FracResp.usage.promptTokens + c8FracResp.usage.completionTokens := by
  constructor
  · have h1 : goInt threeHalves = 1 := by decide
    have h3 : goInt (threeHalves + threeHalves) = 3 := by
      have ht : threeHalves + threeHalves = (3 : Rat) := by
        have he : threeHalves = 3 / 2 := by
          apply Rat.ext <;> norm_num [threeHalves]
        rw [he]
        norm_num
      rw [ht]
      decide
    simp [parseChatResponse, c8FracBody, c8FracResp, jLookup, safeMapAssert,
      safeStringAssert, safeFloat64Assert, bind, Except.bind, h1, h3]
  · decide

/-- C8 amended: a chat or completion response built from an upstream reply
satisfies Usage.TotalTokens = Usage.PromptTokens + Usage.CompletionTokens
whenever each extracted token count (0 when the field is missing or
mistyped) is a whole number; non-integral upstream floats break the
equality because the sum is truncated jointly. -/
theorem usage_total_eq_sum_when_counts_whole (body : List (String × JVal))
    (id : String) (created : Int) (model : String) :
    (∀ r, parseChatResponse body id created model = .ok r →
      (safeFloat64Assert (jLookup body "prompt_eval_count")).1.den = 1 →
      (safeFloat64Assert (jLookup body "eval_count")).1.den = 1 →
      r.usage.totalTokens = r.usage.promptTokens + r.usage.completionTokens) ∧
    (∀ r, parseCompletionResponse body id created model = .ok r →
      (safeFloat64Assert (jLookup body "prompt_eval_count")).1.den = 1 →
      (safeFloat64Assert (jLookup body "eval_count")).1.den = 1 →
      r.usage.totalTokens = r.usage.promptTokens + r.usage.completionTokens) := by
  constructor
  · intro r h hp hc
    rcases hm : safeMapAssert (jLookup body "message") with e | fields
    · simp [parseChatResponse, hm, bind, Except.bind] at h
    · rcases hs : safeStringAssert (jLookup fields "content") with e | content
      · simp [parseChatResponse, hm, hs, bind, Except.bind] at h
      · simp [parseChatResponse, hm, hs, bind, Except.bind] at h
        rw [← h]
        exact goInt_add_whole _ _ hp hc
  · intro r h hp hc
    rcases hs : safeStringAssert (jLookup body "response") with e | txt
    · simp [parseCompletionResponse, hs, bind, Except.bind] at h
    · simp [parseCompletionResponse, hs, bind, Except.bind] at h
      rw [← h]
      exact goInt_add_whole _ _ hp hc

def sevenQ : Rat := ⟨7, 1, by norm_num, by norm_num⟩

/-- A decoded chat reply with a whole prompt count and a missing
eval_count (which defaults to 0). -/
def c8WholeBody : List (String × JVal) :=
  [("message", JVal.obj [("content", JVal.str "ok")]),
   ("prompt_eval_count", JVal.num sevenQ)]

def c8WholeResp : LLMResponse :=
  ⟨"chatcmpl-1", "chat.completion", 0, "llama2",
    [⟨0, ⟨"assistant", "ok"⟩, ⟨"", ""⟩⟩], ⟨7, 0, 7⟩, none⟩

/-- C8 amended witness: with a whole prompt count of 7 and a missing
completion count defaulting to 0, the parsed usage is 7 + 0 = 7. -/
theorem usage_total_eq_sum_when_counts_whole_witness :
    parseChatResponse c8WholeBody "chatcmpl-1" 0 "llama2" = .ok c8WholeResp ∧
    (safeFloat64Assert (jLookup c8WholeBody "prompt_eval_count")).1.den = 1 ∧
    (safeFloat64Assert (jLookup c8WholeBody "eval_count")).1.den = 1 ∧
    c8WholeResp.usage.totalTokens =
      c8WholeResp.usage.promptTokens + c8WholeResp.usage.completionTokens := by
  have h7 : goInt sevenQ = 7 := by decide
  have h0 : goInt 0 = 0 := by decide
  have hz : goInt (sevenQ + 0) = 7 := by
    rw [Rat.add_zero]
    exact h7
  have hparse : parseChatResponse c8WholeBody "chatcmpl-1" 0 "llama2" = .ok c8WholeResp := by
    simp [parseChatResponse, c8WholeBody, c8WholeResp, jLookup, safeMapAssert,
      safeStringAssert, safeFloat64Assert, bind, Except.bind, h7, h0, hz]
  exact ⟨hparse, rfl, rfl,
    (usage_total_eq_sum_when_counts_whole c8WholeBody "chatcmpl-1" 0 "llama2").1
      c8WholeResp hparse rfl rfl⟩

/-- C9: the search cache key is built from query, language and max_results
only — the Source field is not part of it — so a second request identical
in those three fields is served the first request's cached response
verbatim (with the first request's echoed Source), with no upstream call
and no write, whatever its own Source says. -/
theorem search_cache_key_ignores_source (env env₂ : EncEnv)
    (req₁ req₂ : EncyclopediaSearchRequest) (r : EncyclopediaSearchResponse)
    (hq : req₂.query = req₁.query) (hl : req₂.language = req₁.language)
    (hm : req₂.maxResults = req₁.maxResults)
    (hmiss : env.cacheGet (searchCacheKey (applySearchDefaults req₁)) = none)
    (hok : (searchEncyclopedia env req₁).result = .ok r)
    (hw : (searchEncyclopedia env req₁).writes ≠ [])
    (henv : env₂.cacheGet = applyWrites (searchEncyclopedia env req₁).writes env.cacheGet) :
    searchEncyclopedia env₂ req₂ = ⟨.ok r, [], []⟩ ∧
    r.source = (applySearchDefaults req₁).source := by
  obtain ⟨hwrites, hsrc⟩ := enc_writes_spec env req₁ r hmiss hok hw
  have hkey : searchCacheKey (applySearchDefaults req₂) =
      searchCacheKey (applySearchDefaults req₁) := by
    simp [searchCacheKey, applySearchDefaults, hq, hl, hm]
  have hget : env₂.cacheGet (searchCacheKey (applySearchDefaults req₂)) =
      some (CVal.search r) := by
    rw [henv, hkey, hwrites]
    simp [applyWrites]
  exact ⟨by simp [searchEncyclopedia, hget], hsrc⟩

def c9Env : EncEnv := { baseEncEnv with wikiSearch := fun _ _ _ => .ok [wikiHit] }

def c9Req1 : EncyclopediaSearchRequest := ⟨"go", "wikipedia", 5, "en", false⟩

def c9Req2 : EncyclopediaSearchRequest := ⟨"go", "all", 5, "en", false⟩

def c9Resp : EncyclopediaSearchResponse := ⟨"go", [wikiHit], 1, "wikipedia", "en"⟩

def c9Env2 : EncEnv :=
  { baseEncEnv with
    cacheGet := applyWrites (searchEncyclopedia c9Env c9Req1).writes c9Env.cacheGet
    britSearch := fun _ _ _ => .ok [britHit] }

/-- C9 witness: a source="wikipedia" search populates the cache; a
source="all" search with the same query/language/max_results is then
served the wikipedia-flavoured cached response, calling no provider. -/
theorem search_cache_key_ignores_source_witness :
    (searchEncyclopedia c9Env c9Req1).result = .ok c9Resp ∧
    c9Req2.source ≠ c9Req1.source ∧
    searchEncyclopedia c9Env2 c9Req2 = ⟨.ok c9Resp, [], []⟩ ∧
    c9Resp.source = "wikipedia" :=
  ⟨rfl, by decide,
    (search_cache_key_ignores_source c9Env c9Env2 c9Req1 c9Req2 c9Resp
        rfl rfl rfl rfl rfl (by decide) rfl).1,
    (search_cache_key_ignores_source c9Env c9Env2 c9Req1 c9Req2 c9Resp
        rfl rfl rfl rfl rfl (by decide) rfl).2⟩

/-- C10: a search whose defaulted Source is none of "wikipedia",
"britannica", "all" makes no upstream call and, on a cache miss, returns a
success response with an empty result list and TotalFound = 0, writing
that empty response to the cache under the request's key. -/
theorem unknown_source_returns_empty_success (env : EncEnv)
    (req : EncyclopediaSearchRequest)
    (hmiss : env.cacheGet (searchCacheKey (applySearchDefaults req)) = none)
    (h1 : (applySearchDefaults req).source ≠ "wikipedia")
    (h2 : (applySearchDefaults req).source ≠ "britannica")
    (h3 : (applySearchDefaults req).source ≠ "all") :
    searchEncyclopedia env req =
      ⟨.ok ⟨(applySearchDefaults req).query, [], 0, (applySearchDefaults req).source,
          (applySearchDefaults req).language⟩, [],
        [⟨searchCacheKey (applySearchDefaults req),
          CVal.search ⟨(applySearchDefaults req).query, [], 0,
            (applySearchDefaults req).source, (applySearchDefaults req).language⟩, 3600⟩]⟩ := by
  simp [searchEncyclopedia, hmiss, h1, h2, h3]

/-- C10 witness: source "google" yields the cached empty success
response with no provider call. -/
theorem unknown_source_returns_empty_success_witness :
    baseEncEnv.cacheGet (searchCacheKey (applySearchDefaults ⟨"go", "google", 5, "en", false⟩)) =
      none ∧
    searchEncyclopedia baseEncEnv ⟨"go", "google", 5, "en", false⟩ =
      ⟨.ok ⟨"go", [], 0, "google", "en"⟩, [],
        [⟨"search:go:en:5", CVal.search ⟨"go", [], 0, "google", "en"⟩, 3600⟩]⟩ :=
  ⟨rfl,
    unknown_source_returns_empty_success baseEncEnv ⟨"go", "google", 5, "en", false⟩
      rfl (by decide) (by decide) (by decide)⟩

end AgentOllamaGin
